import Mathlib

/-!
Shallow embedding of the mik-manga retrieval core, translated from the
repository sources:

* `src/core/manager/request.py` — `RequestManager` (bounded-concurrency
  retrying HTTP client);
* `src/core/abstract/spider.py` — `BaseSpider.get_manga_full` (concurrent
  chapter aggregation);
* `src/core/abstract/find.py` — `BaseFindEngine.select_page` (paginated
  search session with cache);
* `src/spider/multi_manga/parser.py` — `MultiMangaChapterParser.extract_chapter`;
* `src/core/entites/schemas.py` — the pydantic data schemas.

URLs and markup are modelled as plain strings; time amounts as rationals;
the values sampled by `random.uniform(0, 1)` are passed in as an explicit
stream of rationals.  A Python function that can raise is modelled with
`Option`/`Except`.
-/

namespace MikManga

/-! ### `src/core/manager/request.py` — `RequestManager` -/

/-- Class-level defaults of `RequestManager` (request.py lines 19-29). -/
def SLEEP_TIME : Nat := 2

/-- Class default `USE_RANDOM = True` (request.py line 22). -/
def USE_RANDOM : Bool := true

/-- Class default `max_concurrents = 5` (request.py line 25). -/
def default_max_concurrents : Nat := 5

/-- Class default `MAX_RETRIES = 3` (request.py line 28). -/
def MAX_RETRIES : Nat := 3

/-- Python `x or d` on an optional integer argument: `None` and `0` are
falsy, so both fall back to the default `d`. -/
def pyOrNat (x : Option Nat) (d : Nat) : Nat :=
  match x with
  | none => d
  | some n => if n = 0 then d else n

/-- Python `x or d` on an optional boolean argument: `None` and `False`
are falsy, so both fall back to the default `d`. -/
def pyOrBool (x : Option Bool) (d : Bool) : Bool :=
  match x with
  | none => d
  | some b => if b then b else d

/-- The configuration fields of a `RequestManager` instance that the
`request` loop reads (request.py lines 51-59).  The aiohttp session and
the proxy list do not influence the properties below and are omitted. -/
structure RequestManager where
  maxConcurrents : Nat
  maxRetries : Nat
  sleepTime : Nat
  useRandom : Bool
deriving DecidableEq, Repr

/-- `RequestManager.__init__` (request.py lines 31-59): every keyword
argument is combined with its class default through Python `or`. -/
def RequestManager.init (max_concurrents max_retries sleep_time : Option Nat)
    (use_random : Option Bool) : RequestManager :=
  { maxConcurrents := pyOrNat max_concurrents default_max_concurrents
    maxRetries := pyOrNat max_retries MAX_RETRIES
    sleepTime := pyOrNat sleep_time SLEEP_TIME
    useRandom := pyOrBool use_random USE_RANDOM }

/-- Outcome of one attempt of `self.session.request(...)` followed by
`raise_for_status()`:
* `success body` — the awaited body (the `str`/`bytes` result);
* `httpError s` — `aiohttp.ClientResponseError` with HTTP status `s`
  (this is the only exception class the `except` clause catches);
* `exn` — any other exception (network error, timeout, ...), which the
  `try` block does not catch. -/
inductive FetchOutcome where
  | success (body : String)
  | httpError (status : Nat)
  | exn
deriving DecidableEq, Repr

/-- How one `request()` call terminates: it either returns a value
(`some body` or Python `None`) or lets an uncaught exception propagate. -/
inductive ReqOutcome where
  | returned (v : Option String)
  | raised
deriving DecidableEq, Repr

/-- Observable events of one `request()` call: the `i`-th attempt of
`session.request`, and an `asyncio.sleep` of `d` seconds. -/
inductive ReqEvent where
  | attempt (i : Nat)
  | sleep (d : ℚ)
deriving DecidableEq, Repr

/-- The pacing delay slept after a successful fetch (request.py lines
164-166): `sleep_time * (random.uniform(0, 1) if use_random else 1)`,
where `r` is the value the sampler produced. -/
def pacingDelay (sleepTime : Nat) (useRandom : Bool) (r : ℚ) : ℚ :=
  (sleepTime : ℚ) * (if useRandom then r else 1)

/-- The body of the `for _ in range(self.max_retries)` loop of
`RequestManager.request` (request.py lines 150-186), with `rem`
remaining iterations and `i` the index of the current attempt.
`att i` is the outcome of the `i`-th attempt and `rand i` the value
`random.uniform(0, 1)` would yield after it.  Returns the call's
outcome together with the list of events in order. -/
def requestGo (cfg : RequestManager) (att : Nat → FetchOutcome) (rand : Nat → ℚ) :
    Nat → Nat → ReqOutcome × List ReqEvent
  | 0, _ => (ReqOutcome.returned none, [])
  | rem + 1, i =>
    match att i with
    | FetchOutcome.success body =>
        (ReqOutcome.returned (some body),
         [ReqEvent.attempt i,
          ReqEvent.sleep (pacingDelay cfg.sleepTime cfg.useRandom (rand i))])
    | FetchOutcome.httpError s =>
        if s = 404 then (ReqOutcome.returned none, [ReqEvent.attempt i])
        else if s = 403 then (ReqOutcome.returned none, [ReqEvent.attempt i])
        else
          let rest := requestGo cfg att rand rem (i + 1)
          (rest.1, ReqEvent.attempt i :: rest.2)
    | FetchOutcome.exn => (ReqOutcome.raised, [ReqEvent.attempt i])

/-- `RequestManager.request` (request.py lines 135-186): run the retry
loop for `cfg.maxRetries` iterations starting at attempt `0`; falling
out of the loop returns Python `None`. -/
def request (cfg : RequestManager) (att : Nat → FetchOutcome) (rand : Nat → ℚ) :
    ReqOutcome × List ReqEvent :=
  requestGo cfg att rand cfg.maxRetries 0

/-- Number of attempt events in a trace. -/
def attemptsMade (evs : List ReqEvent) : Nat :=
  (evs.filter fun e => match e with | ReqEvent.attempt _ => true | _ => false).length

/-- `True` when the attempt outcome is an HTTP error the `except` clause
retries: any caught status other than the terminal `404`/`403`. -/
def isRetryableHttp : FetchOutcome → Bool
  | FetchOutcome.httpError s => !(s = 404) && !(s = 403)
  | _ => false

/-- `True` when somewhere in the trace one attempt immediately follows
another, i.e. with no sleep (nor anything else) between them. -/
def adjacentAttempts : List ReqEvent → Bool
  | ReqEvent.attempt _ :: ReqEvent.attempt _ :: _ => true
  | _ :: rest => adjacentAttempts rest
  | [] => false

/-! ### `src/core/entites/schemas.py` — data schemas

URLs are modelled as strings (pydantic's `HttpUrl` validation is not part
of the claims under study). -/

/-- `ChapterSchema` (schemas.py lines 20-30): a chapter page with its
image gallery. -/
structure ChapterSchema where
  url : String
  gallery : List String
deriving DecidableEq, Repr

/-- `BaseMangaSchema` (schemas.py lines 33-45). -/
structure BaseMangaSchema where
  title : String
  poster : String
  url : String
deriving DecidableEq, Repr

/-- `MangaSchema` (schemas.py lines 48-64): detail record whose
`chapters` are chapter-page URLs. -/
structure MangaSchema where
  title : String
  poster : String
  url : String
  genres : List String
  author : String
  language : String
  chapters : List String
deriving DecidableEq, Repr

/-- `MangaDetailSchema` (schemas.py lines 67-77): `MangaSchema` with the
chapter URLs replaced by resolved `ChapterSchema` objects. -/
structure MangaDetailSchema where
  title : String
  poster : String
  url : String
  genres : List String
  author : String
  language : String
  chapters : List ChapterSchema
deriving DecidableEq, Repr

/-! ### `src/core/abstract/spider.py` — `BaseSpider.get_manga_full` -/

/-- Lookup in the Python dict `{x.url: x for x in chapters}` (spider.py
line 143): insertion iterates the list in order and a later binding of
the same key overrides an earlier one, so a lookup returns the last
matching element. -/
def dictLookup (fetched : List ChapterSchema) (u : String) : Option ChapterSchema :=
  fetched.reverse.find? fun x => x.url = u

/-- The list comprehension `[mixed_chapters[x] for x in manga.chapters]`
(spider.py line 152); a missing key raises `KeyError`, modelled by
`none`. -/
def lookupAll (urls : List String) (fetched : List ChapterSchema) :
    Option (List ChapterSchema) :=
  match urls with
  | [] => some []
  | u :: us =>
    match dictLookup fetched u, lookupAll us fetched with
    | some c, some cs => some (c :: cs)
    | _, _ => none

/-- `asyncio.gather` over `get_manga_chapter` tasks (spider.py lines
137-142): one result per chapter URL, in task-creation order; a failed
chapter fetch contributes Python `None`, here `none`. -/
def gatherChapters (get_chapter : String → Option ChapterSchema) :
    List String → List (Option ChapterSchema)
  | [] => []
  | u :: us => get_chapter u :: gatherChapters get_chapter us

/-- Strip the `Option`s off the gathered results.  The dict
comprehension evaluates `x.url` on each element, so a `None` element
raises `AttributeError`, modelled by `none`. -/
def stripGathered : List (Option ChapterSchema) → Option (List ChapterSchema)
  | [] => some []
  | some c :: rest => (stripGathered rest).map fun cs => c :: cs
  | none :: _ => none

/-- `BaseSpider.get_manga_full` (spider.py lines 118-153), parametrised
by the results of `get_manga` and `get_manga_chapter`.  `Except.error ()`
models an exception escaping the call: `AttributeError` when the detail
fetch returned `None` (line 139 reads `manga.chapters`), `AttributeError`
when a gathered chapter is `None` (line 143 reads `x.url`), or
`KeyError` in the reassembly comprehension (line 152). -/
def get_manga_full (get_manga : String → Option MangaSchema)
    (get_chapter : String → Option ChapterSchema) (url : String) :
    Except Unit MangaDetailSchema :=
  match get_manga url with
  | none => Except.error ()
  | some manga =>
    match stripGathered (gatherChapters get_chapter manga.chapters) with
    | none => Except.error ()
    | some fetched =>
      match lookupAll manga.chapters fetched with
      | none => Except.error ()
      | some chs =>
        Except.ok
          { title := manga.title, poster := manga.poster, url := manga.url
            genres := manga.genres, author := manga.author
            language := manga.language, chapters := chs }

/-! ### `src/core/abstract/find.py` — `BaseFindEngine.select_page` -/

/-- The mutable state of a `BaseFindEngine` session that `select_page`
reads and writes (find.py lines 90-108): the cursor, the page bound and
the TTL cache (modelled as an association list from page number to
parsed page; entry expiry does not occur in the scenarios below). -/
structure FindState where
  page_now : Int
  max_page : Int
  cashe : List (Int × List BaseMangaSchema)
deriving DecidableEq, Repr

/-- `page in self.cashe` / `self.cashe[page]` on the session cache. -/
def casheLookup (c : List (Int × List BaseMangaSchema)) (page : Int) :
    Option (List BaseMangaSchema) :=
  (c.find? fun e => e.1 = page).map Prod.snd

/-- `BaseFindEngine.select_page` (find.py lines 193-242), parametrised by
the composition of `self.engine.get(self._build_page(), 'read')` with the
page number it is built from (`fetch`, `none` = fetch failed) and by
`self.parser.parse_page` (`parse`).  Returns the result list, the new
session state, and how many underlying fetches were issued. -/
def select_page (fetch : Int → Option String)
    (parse : String → List BaseMangaSchema)
    (s : FindState) (page : Int) :
    List BaseMangaSchema × FindState × Nat :=
  if page < 1 then ([], s, 0)
  else if page > s.max_page then ([], s, 0)
  else
    let s1 : FindState := { s with page_now := page }
    match casheLookup s1.cashe page with
    | some cached => (cached, s1, 0)
    | none =>
      match fetch page with
      | none => ([], s1, 1)
      | some response =>
        let result := parse response
        (result, { s1 with cashe := (page, result) :: s1.cashe }, 1)

/-! ### `src/spider/multi_manga/parser.py` — `MultiMangaChapterParser` -/

/-- An `img` tag selected by
`div#thumbnail-container div.thumb-container img`, reduced to its
`data-src` attribute (`none` when the attribute is absent, in which case
`img["data-src"]` raises `KeyError`). -/
structure ImgTag where
  dataSrc : Option String
deriving DecidableEq, Repr

/-- `BaseParser.urljoin` (parser.py lines 21-25): keep an absolute URL,
otherwise resolve against the base URL with `urllib.parse.urljoin`,
passed in as `join`. -/
def urljoin (join : String → String → String) (base url : String) : String :=
  if url.startsWith "http" then url else join base url

/-- The `for img in soup.select(...)` loop of `extract_chapter`
(parser.py lines 87-89): collect `img["data-src"]` for every selected
tag; a tag without the attribute raises, aborting the extraction. -/
def collectDataSrc : List ImgTag → Option (List String)
  | [] => some []
  | img :: rest =>
    match img.dataSrc with
    | none => none
    | some src => (collectDataSrc rest).map fun srcs => src :: srcs

/-- `MultiMangaChapterParser.extract_chapter` (parser.py lines 84-90):
build the gallery from the selected thumbnails and return a
`ChapterSchema`; `none` models the `KeyError` on a missing `data-src`. -/
def extract_chapter (join : String → String → String) (base : String)
    (imgs : List ImgTag) (url : String) : Option ChapterSchema :=
  (collectDataSrc imgs).map fun srcs =>
    { url := url, gallery := srcs.map (urljoin join base) }

/-! ### `asyncio.Semaphore` admission gate (request.py lines 58, 146)

`request` executes its whole body under `async with self.semaphore`,
where the semaphore was created with value `max_concurrents`.  The gate
is modelled as a transition system on the number of holders: acquiring
succeeds only while fewer than `k` holders exist (otherwise the caller
suspends), releasing frees a slot. -/

/-- One transition of the admission gate with capacity `k`: the number
of request calls currently inside the `async with` block. -/
inductive SemStep (k : Nat) : Nat → Nat → Prop where
  | acquire (h : Nat) : h < k → SemStep k h (h + 1)
  | release (h : Nat) : 0 < h → SemStep k h (h - 1)

/-- Gate states reachable from the freshly constructed semaphore
(zero holders). -/
inductive SemReach (k : Nat) : Nat → Prop where
  | init : SemReach k 0
  | step {h h' : Nat} : SemReach k h → SemStep k h h' → SemReach k h'

/-! ### Helper lemmas about the retry loop -/

/-- A trace consisting only of attempt events has one attempt per
element. -/
theorem attemptsMade_map_attempt (l : List Nat) :
    attemptsMade (l.map ReqEvent.attempt) = l.length := by
  induction l with
  | nil => rfl
  | cons a l ih => simpa [attemptsMade, List.filter_cons] using ih

/-- When every attempt fails with a retryable HTTP error, the loop body
runs through all of its remaining iterations and the call falls out of
the loop with Python `None`, having produced exactly one attempt event
per iteration. -/
theorem requestGo_all_retryable (cfg : RequestManager) (att : Nat → FetchOutcome)
    (rand : Nat → ℚ) (h : ∀ j, isRetryableHttp (att j) = true) :
    ∀ rem i, requestGo cfg att rand rem i
      = (ReqOutcome.returned none, (List.range' i rem).map ReqEvent.attempt) := by
  intro rem
  induction rem with
  | zero => intro i; simp [requestGo]
  | succ rem ih =>
    intro i
    have hi := h i
    cases hatt : att i with
    | success body => rw [hatt] at hi; simp [isRetryableHttp] at hi
    | exn => rw [hatt] at hi; simp [isRetryableHttp] at hi
    | httpError s =>
      rw [hatt] at hi
      simp [isRetryableHttp] at hi
      obtain ⟨h404, h403⟩ := hi
      simp [requestGo, hatt, h404, h403, ih (i + 1), List.range'_succ]

/-- When the first `m` attempts fail with retryable HTTP errors and
attempt `m` succeeds (counting from `start`, with `m` still within the
remaining iteration budget), the loop returns the successful body right
after sleeping the pacing delay, with no sleep between the attempts. -/
theorem requestGo_success (cfg : RequestManager) (att : Nat → FetchOutcome)
    (rand : Nat → ℚ) :
    ∀ (m rem start : Nat) (b : String), m < rem →
      (∀ j, j < m → isRetryableHttp (att (start + j)) = true) →
      att (start + m) = FetchOutcome.success b →
      requestGo cfg att rand rem start
        = (ReqOutcome.returned (some b),
           (List.range' start (m + 1)).map ReqEvent.attempt
             ++ [ReqEvent.sleep
                  (pacingDelay cfg.sleepTime cfg.useRandom (rand (start + m)))]) := by
  intro m
  induction m with
  | zero =>
    intro rem start b hm hpre hsucc
    obtain ⟨rem0, rfl⟩ := Nat.exists_eq_succ_of_ne_zero (by omega : rem ≠ 0)
    simp only [Nat.add_zero] at hsucc
    simp [requestGo, hsucc, List.range'_succ]
  | succ m ih =>
    intro rem start b hm hpre hsucc
    obtain ⟨rem0, rfl⟩ := Nat.exists_eq_succ_of_ne_zero (by omega : rem ≠ 0)
    have h0 := hpre 0 (Nat.succ_pos m)
    simp only [Nat.add_zero] at h0
    cases hatt : att start with
    | success body => rw [hatt] at h0; simp [isRetryableHttp] at h0
    | exn => rw [hatt] at h0; simp [isRetryableHttp] at h0
    | httpError s =>
      rw [hatt] at h0
      simp [isRetryableHttp] at h0
      obtain ⟨h404, h403⟩ := h0
      have hpre2 : ∀ j, j < m → isRetryableHttp (att (start + 1 + j)) = true := by
        intro j hj
        have heq : start + 1 + j = start + (j + 1) := by omega
        rw [heq]
        exact hpre (j + 1) (by omega)
      have hsucc2 : att (start + 1 + m) = FetchOutcome.success b := by
        have heq : start + 1 + m = start + (m + 1) := by omega
        rw [heq]; exact hsucc
      have hrec := ih rem0 (start + 1) b (by omega) hpre2 hsucc2
      have heq2 : start + (m + 1) = start + 1 + m := by omega
      simp [requestGo, hatt, h404, h403, hrec, List.range'_succ, heq2]

/-! ### Claim C1 — retry count on all-retryable failures -/

/-- Claim C1, counterexample: with `max_retries = 3` (the default) and
every attempt failing with HTTP 500, the call makes `3` attempts in
total and yields `None`; it does **not** make `3` further attempts after
the first (which would be `4` in total), as the claim states. -/
theorem request_retry_count_counterexample :
    (request (RequestManager.init none none none none)
        (fun _ => FetchOutcome.httpError 500) (fun _ => 0)).1
      = ReqOutcome.returned none
    ∧ attemptsMade (request (RequestManager.init none none none none)
        (fun _ => FetchOutcome.httpError 500) (fun _ => 0)).2 ≠ 3 + 1 := by
  decide

/-- Claim C1, amended: for every `RequestManager` configured with
`max_retries = R`, a `request()` call whose every attempt fails with a
retryable HTTP error (a caught status other than 404/403) makes exactly
`R` attempts in total — `R - 1` retries after the first — before the
call yields absent (`None`). -/
theorem request_retry_count (cfg : RequestManager) (att : Nat → FetchOutcome)
    (rand : Nat → ℚ) (h : ∀ j, isRetryableHttp (att j) = true) :
    request cfg att rand
      = (ReqOutcome.returned none,
         (List.range cfg.maxRetries).map ReqEvent.attempt)
    ∧ attemptsMade (request cfg att rand).2 = cfg.maxRetries := by
  have hmain : request cfg att rand
      = (ReqOutcome.returned none,
         (List.range cfg.maxRetries).map ReqEvent.attempt) := by
    rw [List.range_eq_range']
    exact requestGo_all_retryable cfg att rand h cfg.maxRetries 0
  refine ⟨hmain, ?_⟩
  rw [hmain]
  simpa using attemptsMade_map_attempt (List.range cfg.maxRetries)

/-- Claim C1, witness: the amended theorem applied to the default
configuration (`max_retries = 3`) with every attempt failing with
HTTP 500. -/
theorem request_retry_count_witness :
    request (RequestManager.init none none none none)
        (fun _ => FetchOutcome.httpError 500) (fun _ => 0)
      = (ReqOutcome.returned none,
         (List.range (RequestManager.init none none none none).maxRetries).map
           ReqEvent.attempt)
    ∧ attemptsMade (request (RequestManager.init none none none none)
        (fun _ => FetchOutcome.httpError 500) (fun _ => 0)).2
      = (RequestManager.init none none none none).maxRetries :=
  request_retry_count (RequestManager.init none none none none)
    (fun _ => FetchOutcome.httpError 500) (fun _ => 0) (fun _ => rfl)

/-! ### Claim C2 — 404/403 are terminal -/

/-- Claim C2 (confirmed): for every `RequestManager` and every
`request()` call whose attempt fails with HTTP 404 or 403, the call
returns absent (`None`) immediately with zero retries: the trace is the
single attempt event, with no further attempt and no sleep. -/
theorem request_terminal_no_retry (cfg : RequestManager) (att : Nat → FetchOutcome)
    (rand : Nat → ℚ) (hR : 1 ≤ cfg.maxRetries)
    (h : att 0 = FetchOutcome.httpError 404 ∨ att 0 = FetchOutcome.httpError 403) :
    request cfg att rand = (ReqOutcome.returned none, [ReqEvent.attempt 0]) := by
  obtain ⟨rem, hrem⟩ := Nat.exists_eq_succ_of_ne_zero (by omega : cfg.maxRetries ≠ 0)
  rcases h with h | h <;> simp [request, hrem, requestGo, h]

/-- Claim C2, witness: a 404 on the first attempt under the default
configuration yields `None` after exactly one attempt. -/
theorem request_terminal_no_retry_witness :
    request (RequestManager.init none none none none)
        (fun _ => FetchOutcome.httpError 404) (fun _ => 0)
      = (ReqOutcome.returned none, [ReqEvent.attempt 0]) :=
  request_terminal_no_retry (RequestManager.init none none none none)
    (fun _ => FetchOutcome.httpError 404) (fun _ => 0) (by decide) (Or.inl rfl)

/-! ### Claim C3 — pacing delays -/

/-- Claim C3, counterexample: with the default configuration, a first
attempt failing with HTTP 500 and a second attempt succeeding, the two
attempt events are adjacent in the trace — no pacing delay separates
consecutive attempts, contrary to the claim. -/
theorem request_pacing_counterexample :
    adjacentAttempts (request (RequestManager.init none none none none)
        (fun i => if i = 0 then FetchOutcome.httpError 500
                  else FetchOutcome.success "ok")
        (fun _ => 0)).2 = true := by
  decide

/-- Claim C3, amended: the pacing delay — `sleep_time` scaled by the
sampled uniform factor when `use_random` is enabled, else `sleep_time`
itself — is performed only after a successful fetch, immediately before
the result is returned; failed attempts are retried with no intervening
delay, so consecutive attempts are not separated by any sleep. -/
theorem request_pacing (cfg : RequestManager) (att : Nat → FetchOutcome)
    (rand : Nat → ℚ) (i : Nat) (b : String) (hi : i < cfg.maxRetries)
    (hpre : ∀ j, j < i → isRetryableHttp (att j) = true)
    (hsucc : att i = FetchOutcome.success b) :
    request cfg att rand
      = (ReqOutcome.returned (some b),
         (List.range (i + 1)).map ReqEvent.attempt
           ++ [ReqEvent.sleep (pacingDelay cfg.sleepTime cfg.useRandom (rand i))]) := by
  rw [List.range_eq_range']
  have h := requestGo_success cfg att rand i cfg.maxRetries 0 b hi
    (by intro j hj; simpa using hpre j hj) (by simpa using hsucc)
  simpa using h

/-- Claim C3, witness: the amended theorem applied to the default
configuration with a 500 on the first attempt and a success on the
second. -/
theorem request_pacing_witness :
    request (RequestManager.init none none none none)
        (fun i => if i = 0 then FetchOutcome.httpError 500
                  else FetchOutcome.success "ok")
        (fun _ => (1 : ℚ) / 2)
      = (ReqOutcome.returned (some "ok"),
         (List.range (1 + 1)).map ReqEvent.attempt
           ++ [ReqEvent.sleep
                (pacingDelay (RequestManager.init none none none none).sleepTime
                  (RequestManager.init none none none none).useRandom
                  ((fun _ => (1 : ℚ) / 2) 1))]) :=
  request_pacing (RequestManager.init none none none none)
    (fun i => if i = 0 then FetchOutcome.httpError 500
              else FetchOutcome.success "ok")
    (fun _ => (1 : ℚ) / 2) 1 "ok" (by decide) (by decide) rfl

/-! ### Claim C10 — jitter cannot be disabled -/

/-- Claim C10 (confirmed): constructing a `RequestManager` with
`use_random=False` still yields an instance whose effective `use_random`
is `True`: the falsy `False` is replaced by the class default through
the `or` fallback, so jitter cannot be disabled via the constructor. -/
theorem init_use_random_false_ignored
    (max_concurrents max_retries sleep_time : Option Nat) :
    (RequestManager.init max_concurrents max_retries sleep_time
        (some false)).useRandom = true := rfl

/-! ### Helper lemmas about chapter reassembly -/

/-- Looking a URL up in the dict built from any permutation of the
fetched chapters returns that URL's chapter, provided each fetched
chapter carries the URL it was fetched from. -/
theorem dictLookup_perm (urls : List String) (f : String → ChapterSchema)
    (hf : ∀ u ∈ urls, (f u).url = u) (fetched : List ChapterSchema)
    (hperm : fetched.Perm (urls.map f)) (u : String) (hu : u ∈ urls) :
    dictLookup fetched u = some (f u) := by
  have hmem : f u ∈ fetched := hperm.mem_iff.mpr (List.mem_map_of_mem f hu)
  have hrev : f u ∈ fetched.reverse := List.mem_reverse.mpr hmem
  have hsome : (fetched.reverse.find? fun x => x.url = u).isSome := by
    rw [List.find?_isSome]
    exact ⟨f u, hrev, by simp [hf u hu]⟩
  obtain ⟨y, hy⟩ := Option.isSome_iff_exists.mp hsome
  have hyp := List.find?_some hy
  have hymem : y ∈ fetched := List.mem_reverse.mp (List.mem_of_find?_eq_some hy)
  have hymap : y ∈ urls.map f := hperm.subset hymem
  obtain ⟨v, hv, rfl⟩ := List.mem_map.mp hymap
  have hfv : (f v).url = v := hf v hv
  have hvu : v = u := by simpa [hfv] using hyp
  subst hvu
  simpa [dictLookup] using hy

/-- The reassembly comprehension succeeds and restores the request
order once every URL's dict lookup yields its chapter. -/
theorem lookupAll_of_lookup (fetched : List ChapterSchema) :
    ∀ (urls : List String) (f : String → ChapterSchema),
      (∀ u ∈ urls, dictLookup fetched u = some (f u)) →
      lookupAll urls fetched = some (urls.map f) := by
  intro urls f
  induction urls with
  | nil => intro _; simp [lookupAll]
  | cons u us ih =>
    intro h
    have h1 := h u (List.mem_cons_self u us)
    have h2 := ih fun v hv => h v (List.mem_cons_of_mem u hv)
    simp [lookupAll, h1, h2]

/-- When every chapter fetch succeeds, the gathered results strip to the
list of chapters in task-creation order. -/
theorem stripGathered_all_some (f : String → ChapterSchema) :
    ∀ urls : List String,
      stripGathered (gatherChapters (fun u => some (f u)) urls)
        = some (urls.map f) := by
  intro urls
  induction urls with
  | nil => rfl
  | cons u us ih => simp [gatherChapters, stripGathered, ih]

/-- A single failed chapter fetch poisons the gathered results: the
dict comprehension hits the `None` element and raises. -/
theorem stripGathered_none (gc : String → Option ChapterSchema) :
    ∀ (urls : List String) (u0 : String), u0 ∈ urls → gc u0 = none →
      stripGathered (gatherChapters gc urls) = none := by
  intro urls
  induction urls with
  | nil => intro u0 h _; exact absurd h (List.not_mem_nil u0)
  | cons u us ih =>
    intro u0 hmem hnone
    rcases List.mem_cons.mp hmem with rfl | hmem2
    · simp [gatherChapters, stripGathered, hnone]
    · cases hgc : gc u with
      | none => simp [gatherChapters, stripGathered, hgc]
      | some c => simp [gatherChapters, stripGathered, hgc, ih u0 hmem2 hnone]

/-! ### Claim C4 — aggregation preserves chapter order -/

/-- Claim C4 (confirmed): for a manga detail whose chapter list is
`[u1, ..., un]`, the keyed reassembly returns the fetched chapters in
exactly that order for **every** permutation of the fetched list (i.e.
for every completion order of the concurrent fetches), and
`get_manga_full` returns a `MangaDetailSchema` whose `chapters` field is
exactly `[f u1, ..., f un]`.  The hypothesis `hf` records that each
fetched chapter is keyed by the URL it was fetched from (as
`extract_chapter` guarantees). -/
theorem get_manga_full_order (get_manga : String → Option MangaSchema)
    (f : String → ChapterSchema) (url : String) (manga : MangaSchema)
    (hgm : get_manga url = some manga)
    (hf : ∀ u ∈ manga.chapters, (f u).url = u) :
    (∀ fetched, fetched.Perm (manga.chapters.map f) →
        lookupAll manga.chapters fetched = some (manga.chapters.map f))
    ∧ ∃ d, get_manga_full get_manga (fun u => some (f u)) url = Except.ok d
          ∧ d.chapters = manga.chapters.map f := by
  have hlook : ∀ fetched, fetched.Perm (manga.chapters.map f) →
      lookupAll manga.chapters fetched = some (manga.chapters.map f) :=
    fun fetched hperm =>
      lookupAll_of_lookup fetched manga.chapters f fun u hu =>
        dictLookup_perm manga.chapters f hf fetched hperm u hu
  refine ⟨hlook,
    ⟨{ title := manga.title, poster := manga.poster, url := manga.url
       genres := manga.genres, author := manga.author
       language := manga.language, chapters := manga.chapters.map f }, ?_, rfl⟩⟩
  simp [get_manga_full, hgm, stripGathered_all_some f manga.chapters,
    hlook (manga.chapters.map f) (List.Perm.refl _)]

/-- Claim C4, witness: reassembling two chapters delivered in reversed
completion order restores the original request order. -/
theorem get_manga_full_order_witness :
    lookupAll ["c1", "c2"]
        [{ url := "c2", gallery := ["g"] }, { url := "c1", gallery := ["g"] }]
      = some [{ url := "c1", gallery := ["g"] }, { url := "c2", gallery := ["g"] }] :=
  (get_manga_full_order
      (fun _ => some ⟨"t", "p", "u", [], "a", "l", ["c1", "c2"]⟩)
      (fun u => ⟨u, ["g"]⟩) "u" ⟨"t", "p", "u", [], "a", "l", ["c1", "c2"]⟩
      rfl (by decide)).1
    [⟨"c2", ["g"]⟩, ⟨"c1", ["g"]⟩]
    (List.Perm.swap (⟨"c1", ["g"]⟩ : ChapterSchema) (⟨"c2", ["g"]⟩ : ChapterSchema) [])

/-! ### Claim C9 — absent fetches make `get_manga_full` raise -/

/-- Claim C9 (confirmed): when the detail fetch yields `None`,
`get_manga_full` raises (`AttributeError` on `manga.chapters`) instead
of returning absent; likewise when any concurrent chapter fetch yields
`None`, the reassembly raises (`AttributeError` on `x.url`) rather than
producing a result. -/
theorem get_manga_full_raises_on_absent (gm : String → Option MangaSchema)
    (gc : String → Option ChapterSchema) (url : String) :
    (gm url = none → get_manga_full gm gc url = Except.error ())
    ∧ (∀ (manga : MangaSchema) (u0 : String), gm url = some manga →
        u0 ∈ manga.chapters → gc u0 = none →
        get_manga_full gm gc url = Except.error ()) := by
  constructor
  · intro h; simp [get_manga_full, h]
  · intro manga u0 hm hmem hnone
    simp [get_manga_full, hm, stripGathered_none gc manga.chapters u0 hmem hnone]

/-- Claim C9, witness: an absent detail fetch makes the call raise. -/
theorem get_manga_full_raises_witness :
    get_manga_full (fun _ => none) (fun _ => none)
        "https://multi-manga.online/m/1" = Except.error () :=
  (get_manga_full_raises_on_absent (fun _ => none) (fun _ => none)
      "https://multi-manga.online/m/1").1 rfl

/-! ### Claim C5 — pagination bounds -/

/-- Claim C5 (confirmed): for every session with `max_page = M ≥ 1` and
every `n < 1` or `n > M`, `select_page n` returns an empty sequence with
no underlying fetch; both out-of-range branches return locally instead
of raising. -/
theorem select_page_out_of_range (fetch : Int → Option String)
    (parse : String → List BaseMangaSchema) (s : FindState) (n : Int)
    (hM : 1 ≤ s.max_page) (hn : n < 1 ∨ n > s.max_page) :
    (select_page fetch parse s n).1 = []
    ∧ (select_page fetch parse s n).2.2 = 0 := by
  rcases hn with h | h
  · simp [select_page, h]
  · have h1 : ¬ n < 1 := by omega
    simp [select_page, h1, h]

/-- Claim C5, witness: probing page `0` of a three-page session returns
the empty list with no fetch. -/
theorem select_page_out_of_range_witness :
    (select_page (fun _ => none) (fun _ => []) ⟨1, 3, []⟩ 0).1 = []
    ∧ (select_page (fun _ => none) (fun _ => []) ⟨1, 3, []⟩ 0).2.2 = 0 :=
  select_page_out_of_range (fun _ => none) (fun _ => []) ⟨1, 3, []⟩ 0
    (by decide) (Or.inl (by decide))

/-! ### Claim C6 — cache hit on the second `select_page` -/

/-- Claim C6 (confirmed): two successive `select_page n` calls on a
valid page whose fetch succeeds (so the cache entry exists and has not
expired) issue at most one underlying fetch in total; the second call
issues none — it hits the cache — and returns a result identical to the
first call's. -/
theorem select_page_cache (fetch : Int → Option String)
    (parse : String → List BaseMangaSchema) (s : FindState) (n : Int) (m : String)
    (h1 : 1 ≤ n) (h2 : n ≤ s.max_page) (hf : fetch n = some m) :
    (select_page fetch parse (select_page fetch parse s n).2.1 n).1
      = (select_page fetch parse s n).1
    ∧ (select_page fetch parse (select_page fetch parse s n).2.1 n).2.2 = 0
    ∧ (select_page fetch parse s n).2.2
        + (select_page fetch parse (select_page fetch parse s n).2.1 n).2.2 ≤ 1 := by
  have hn1 : ¬ n < 1 := by omega
  have hn2 : ¬ n > s.max_page := by omega
  cases hc : casheLookup s.cashe n with
  | some cached => simp [select_page, hn1, hn2, hc]
  | none =>
    have e1 : select_page fetch parse s n
        = (parse m,
           { page_now := n, max_page := s.max_page
             cashe := (n, parse m) :: s.cashe }, 1) := by
      simp [select_page, hn1, hn2, hc, hf]
    have hc2 : casheLookup ((n, parse m) :: s.cashe) n = some (parse m) := by
      simp [casheLookup, List.find?]
    rw [e1]
    simp [select_page, hn1, hn2, hc2]

/-- Claim C6, witness: the cache property at a concrete session (three
pages, empty cache) reading page `2`. -/
theorem select_page_cache_witness :
    (select_page (fun _ => some "m") (fun _ => [(⟨"t", "p", "u"⟩ : BaseMangaSchema)])
        (select_page (fun _ => some "m") (fun _ => [(⟨"t", "p", "u"⟩ : BaseMangaSchema)])
          ⟨1, 3, []⟩ 2).2.1 2).1
      = (select_page (fun _ => some "m") (fun _ => [(⟨"t", "p", "u"⟩ : BaseMangaSchema)])
          ⟨1, 3, []⟩ 2).1
    ∧ (select_page (fun _ => some "m") (fun _ => [(⟨"t", "p", "u"⟩ : BaseMangaSchema)])
        (select_page (fun _ => some "m") (fun _ => [(⟨"t", "p", "u"⟩ : BaseMangaSchema)])
          ⟨1, 3, []⟩ 2).2.1 2).2.2 = 0
    ∧ (select_page (fun _ => some "m") (fun _ => [(⟨"t", "p", "u"⟩ : BaseMangaSchema)])
          ⟨1, 3, []⟩ 2).2.2
        + (select_page (fun _ => some "m") (fun _ => [(⟨"t", "p", "u"⟩ : BaseMangaSchema)])
            (select_page (fun _ => some "m") (fun _ => [(⟨"t", "p", "u"⟩ : BaseMangaSchema)])
              ⟨1, 3, []⟩ 2).2.1 2).2.2 ≤ 1 :=
  select_page_cache (fun _ => some "m") (fun _ => [(⟨"t", "p", "u"⟩ : BaseMangaSchema)])
    ⟨1, 3, []⟩ 2 "m" (by decide) (by decide) rfl

/-! ### Claim C7 — empty galleries are returned as valid chapters -/

/-- The attribute-collection loop succeeds exactly when every selected
tag carries `data-src`, producing one source per tag. -/
theorem collectDataSrc_length :
    ∀ imgs : List ImgTag, (∀ img ∈ imgs, img.dataSrc.isSome = true) →
      ∃ srcs, collectDataSrc imgs = some srcs ∧ srcs.length = imgs.length := by
  intro imgs
  induction imgs with
  | nil => intro _; exact ⟨[], rfl, rfl⟩
  | cons img rest ih =>
    intro h
    obtain ⟨src, hsrc⟩ :=
      Option.isSome_iff_exists.mp (h img (List.mem_cons_self img rest))
    obtain ⟨srcs, hs, hlen⟩ := ih fun x hx => h x (List.mem_cons_of_mem img hx)
    exact ⟨src :: srcs, by simp [collectDataSrc, hsrc, hs], by simp [hlen]⟩

/-- Claim C7, counterexample: on markup containing no thumbnail images,
`extract_chapter` returns a successfully parsed `ChapterSchema` whose
gallery is empty — the empty gallery is produced as a valid chapter, not
as an extraction failure. -/
theorem extract_chapter_empty_counterexample :
    extract_chapter (fun a b => a ++ b) "https://multi-manga.online/" []
        "https://multi-manga.online/chapter/1"
      = some { url := "https://multi-manga.online/chapter/1", gallery := [] } := rfl

/-- Claim C7, amended: a successful `extract_chapter` returns a chapter
keyed by the requested URL whose gallery has exactly one image URL per
selected thumbnail tag; markup with no thumbnails therefore yields a
valid chapter with an **empty** gallery rather than a failure (the only
failure mode is a thumbnail missing its `data-src` attribute). -/
theorem extract_chapter_gallery (join : String → String → String) (base : String)
    (imgs : List ImgTag) (url : String)
    (h : ∀ img ∈ imgs, img.dataSrc.isSome = true) :
    (extract_chapter join base imgs url).map (fun c => (c.url, c.gallery.length))
      = some (url, imgs.length) := by
  obtain ⟨srcs, hs, hlen⟩ := collectDataSrc_length imgs h
  simp [extract_chapter, hs, hlen]

/-- Claim C7, witness: the amended theorem at a one-thumbnail markup. -/
theorem extract_chapter_gallery_witness :
    (extract_chapter (fun a b => a ++ b) "https://multi-manga.online/"
        [⟨some "/images/1.jpg"⟩] "https://multi-manga.online/chapter/1").map
        (fun c => (c.url, c.gallery.length))
      = some ("https://multi-manga.online/chapter/1", 1) :=
  extract_chapter_gallery (fun a b => a ++ b) "https://multi-manga.online/"
    [⟨some "/images/1.jpg"⟩] "https://multi-manga.online/chapter/1" (by decide)

/-! ### Claim C8 — the admission gate bounds in-flight requests -/

/-- Claim C8 (confirmed): with `max_concurrents = k`, every state of the
admission gate reachable from the freshly constructed semaphore has at
most `k` holders — a `request()` call is in flight only while holding
the gate, so at most `k` requests are ever in flight; further callers
can only suspend on `acquire` until a slot frees. -/
theorem semaphore_in_flight_bound (rm : RequestManager) (h : Nat)
    (hr : SemReach rm.maxConcurrents h) : h ≤ rm.maxConcurrents := by
  induction hr with
  | init => exact Nat.zero_le _
  | step hreach hstep ih =>
    cases hstep with
    | acquire hlt => omega
    | release hpos => omega

/-- Claim C8, witness: one acquired slot on the default configuration
(capacity 5) stays within the bound. -/
theorem semaphore_in_flight_bound_witness :
    1 ≤ (RequestManager.init none none none none).maxConcurrents :=
  semaphore_in_flight_bound (RequestManager.init none none none none) 1
    (SemReach.step SemReach.init (SemStep.acquire 0 (by decide)))

end MikManga
